import Mathlib

/-!
Shallow embedding of the CareNet API (src/api/index.py, src/auth.py).

The service is glue code around two external collaborators: an identity
provider (token verification) and a table store (selects/inserts).  We embed
each HTTP endpoint as a pure function of
  * the startup configuration (which environment credentials were present),
  * the request (parsed body and the raw Authorization header),
  * the behaviour of the external collaborators for this request
    (the verifier's outcome, whether the existence select raises, and an
    oracle giving the outcome of each insert call in order),
  * the current store state (rows existing in the external tables).
Each endpoint returns the HTTP response, the resulting store state, and the
ordered trace of external calls it made.
-/

namespace CareNet

/-! ### Startup configuration (src/api/index.py lines 8-26) -/

/-- Which of the three environment values were supplied at startup. -/
structure Config where
  hasUrl : Bool
  hasAnonKey : Bool
  hasServiceKey : Bool
deriving DecidableEq, Repr

/-- `supabase` (the anon client) is constructed iff url and anon key are set. -/
def supabasePresent (c : Config) : Bool := c.hasUrl && c.hasAnonKey

/-- Which object the module-level `supabase_admin` is bound to. -/
inductive AdminClient
  | fresh       -- a separately constructed client (service-role key)
  | sameAsAnon  -- fell back to the very same object as `supabase`
  | disabled    -- `None`
deriving DecidableEq, Repr

/-- index.py lines 20-26: service-role client if url and service key, else
fall back to the anon client object, else `None`. -/
def adminClient (c : Config) : AdminClient :=
  if c.hasUrl && c.hasServiceKey then .fresh
  else if c.hasUrl && c.hasAnonKey then .sameAsAnon
  else .disabled

/-- `supabase_admin` is truthy iff it is bound to some client object. -/
def supabaseAdminPresent (c : Config) : Bool := adminClient c != .disabled

/-! ### Health endpoint (src/api/index.py lines 88-94) -/

structure HealthResponse where
  status : String
  supabase_connected : Bool
  service_role_enabled : Bool
deriving DecidableEq, Repr

/-- `GET /health`.  `service_role_enabled` is the Python identity test
`supabase_admin is not supabase`: a freshly constructed admin client is a
distinct object (true); after the fallback both names are the same object
(false); with neither configured both are `None` and `None is not None` is
false. -/
def health_check (c : Config) : HealthResponse :=
  { status := "ok"
    supabase_connected := supabasePresent c
    service_role_enabled :=
      match adminClient c with
      | .fresh => true
      | .sameAsAnon => false
      | .disabled => false }

/-! ### Python string helpers -/

/-- Helper for `pyReplace`: scan left to right, replacing each non-overlapping
occurrence of `pat`.  The fuel argument (instantiated with the length of the
scanned list) only serves termination; each step consumes at least one
character of the input. -/
def pyReplaceAux (pat rep : List Char) : Nat → List Char → List Char
  | 0, s => s
  | _ + 1, [] => []
  | fuel + 1, c :: rest =>
    if !pat.isEmpty && pat.isPrefixOf (c :: rest) then
      rep ++ pyReplaceAux pat rep fuel ((c :: rest).drop pat.length)
    else
      c :: pyReplaceAux pat rep fuel rest

/-- Python `s.replace(pat, rep)`: every non-overlapping occurrence of `pat`
in `s`, scanning left to right, is replaced by `rep`. -/
def pyReplace (s pat rep : String) : String :=
  ⟨pyReplaceAux pat.data rep.data s.data.length s.data⟩

/-- Token extraction used by every bearer route:
`token = authorization.replace("Bearer ", "")` (index.py line 115 and
auth.py line 173) — note: this removes every occurrence of `"Bearer "`,
not only the leading scheme prefix. -/
def extractToken (authorization : String) : String :=
  pyReplace authorization "Bearer " ""

/-- Python `s.startswith(pre)`. -/
def pyStartsWith (s pre : String) : Bool := pre.data.isPrefixOf s.data

/-- Helper for `pySplit`: `cur` accumulates the current field in reverse;
the fuel (instantiated with the input length) only serves termination. -/
def pySplitAux (sep : List Char) : Nat → List Char → List Char → List (List Char)
  | _, cur, [] => [cur.reverse]
  | 0, cur, s => [cur.reverse ++ s]
  | fuel + 1, cur, c :: rest =>
    if !sep.isEmpty && sep.isPrefixOf (c :: rest) then
      cur.reverse :: pySplitAux sep fuel [] ((c :: rest).drop sep.length)
    else
      pySplitAux sep fuel (c :: cur) rest

/-- Python `s.split(sep)` for a non-empty separator: fields between
non-overlapping occurrences of `sep`; `"".split(sep) == [""]`. -/
def pySplit (s sep : String) : List String :=
  (pySplitAux sep.data s.data.length [] s.data).map (fun l => ⟨l⟩)

/-- Python truthiness of `a or b` on optional strings: `None` and the empty
string are falsy, so `a or b` yields `b` unless `a` is a non-empty string. -/
def pyOr (a b : Option String) : Option String :=
  match a with
  | some s => if s = "" then b else some s
  | none => b

/-- `data.workplace or None` (index.py line 244). -/
def pyOrNone (a : Option String) : Option String := pyOr a none

/-- index.py lines 291-296: convert `date_of_birth` from DD/MM/YYYY to
YYYY-MM-DD when the input splits into exactly three slash-separated parts,
otherwise pass the original string through unchanged. -/
def convertDOB (s : String) : String :=
  match pySplit s "/" with
  | [d, m, y] => y ++ "-" ++ m ++ "-" ++ d
  | _ => s

/-! ### Identity-provider data -/

/-- The free-form `user_metadata` mapping: association list with first-match
lookup, mirroring a Python dict restricted to the string-valued keys the code
consults. -/
abbrev Metadata := List (String × String)

/-- Python `metadata.get(k)`. -/
def dictGet (md : Metadata) (k : String) : Option String :=
  (md.find? (fun p => p.1 == k)).map (·.2)

/-- The external verifier's user record. `user_metadata` is `none` when the
provider supplied no metadata mapping (Python `None`). -/
structure AuthUser where
  id : String
  email : String
  user_metadata : Option Metadata
deriving DecidableEq, Repr

/-- `metadata = user.user_metadata or {}` (index.py lines 130, 226, 299). -/
def metadataOf (u : AuthUser) : Metadata := u.user_metadata.getD []

/-- `metadata.get("avatar_url") or metadata.get("picture")`
(index.py lines 135, 231, 304; auth.py line 60). -/
def avatarFrom (md : Metadata) : Option String :=
  pyOr (dictGet md "avatar_url") (dictGet md "picture")

/-- Outcome of `supabase.auth.get_user(token)`: the call either raises, or
returns a response whose `.user` field may be falsy (`none`). -/
inductive VerifyOutcome
  | raises (msg : String)
  | user (u : Option AuthUser)
deriving DecidableEq, Repr

/-! ### Store rows and request bodies -/

/-- The dict inserted into the `users` table.  `emergency_contact` is only
present in the caregiver flow's dict; `none` models the key being absent. -/
structure UserRecord where
  id : String
  email : String
  full_name : String
  avatar_url : Option String
  phone : Option String
  role : String
  emergency_contact : Option String
deriving DecidableEq, Repr

/-- Row of `professional_profiles` (index.py lines 240-245). -/
structure ProfessionalRecord where
  user_id : String
  professional_email : String
  specialization : String
  workplace : Option String
deriving DecidableEq, Repr

/-- Row of `elderly_profiles` (index.py lines 314-321).  `weight_kg` is a
float carried through opaquely with no arithmetic, so an exact-rational
carrier is faithful. -/
structure ElderlyRecord where
  user_id : String
  date_of_birth : String
  gender : String
  height_cm : Int
  weight_kg : Rat
  home_address : String
deriving DecidableEq, Repr

/-- Row of `medical_info` (index.py lines 327-349). -/
structure MedicalRecord where
  elderly_id : String
  info_type : String
  name : String
  added_by : String
deriving DecidableEq, Repr

structure CompleteProfileRequest where
  full_name : String
  role : String
  phone : Option String
deriving DecidableEq, Repr

structure CompleteProfessionalRequest where
  full_name : String
  phone : String
  professional_email : String
  specialization : String
  workplace : Option String
deriving DecidableEq, Repr

structure CompleteCaregiverRequest where
  full_name : String
  patient_phone : String
  caregiver_phone : String
  date_of_birth : String
  gender : String
  height_cm : Int
  weight_kg : Rat
  address : String
  allergies : List String
  conditions : List String
  medications : List String
deriving DecidableEq, Repr

/-- State of the external tables this service touches. -/
structure StoreState where
  users : List UserRecord
  professional_profiles : List ProfessionalRecord
  elderly_profiles : List ElderlyRecord
  medical_info : List MedicalRecord
deriving DecidableEq, Repr

/-- Outcome of one `table(...).insert(...).execute()` call, supplied by an
oracle per call: the transport may raise, or return with the inserted row
echoed in `.data`, or return with empty `.data` (in which case nothing was
persisted). -/
inductive InsertOutcome
  | raises (msg : String)
  | returnsRows
  | returnsNoRows
deriving DecidableEq, Repr

/-- One external call made during a request, in order. -/
inductive ExtCall
  | verifyToken (token : String)
  | selectUsers (id : String)
  | insertUser (r : UserRecord)
  | insertProfessional (r : ProfessionalRecord)
  | insertElderly (r : ElderlyRecord)
  | insertMedical (r : MedicalRecord)
deriving DecidableEq, Repr

/-- The `UserProfile` response model (index.py lines 61-67). -/
structure ProfileOut where
  id : String
  email : String
  full_name : String
  avatar_url : Option String
  phone : Option String
  role : String
deriving DecidableEq, Repr

/-- An endpoint's HTTP outcome: a 200 with a profile body, or an
`HTTPException` with its status code and detail string. -/
inductive HTTPResult
  | ok (p : ProfileOut)
  | err (status : Nat) (detail : String)
deriving DecidableEq, Repr

def HTTPResult.statusCode : HTTPResult → Nat
  | .ok _ => 200
  | .err s _ => s

/-- Response, resulting store state, and trace of external calls. -/
structure EndpointResult where
  response : HTTPResult
  store : StoreState
  calls : List ExtCall
deriving DecidableEq, Repr

def valid_roles : List String := ["elderly", "family_supervisor", "professional"]

/-! ### POST /auth/complete-profile (src/api/index.py lines 99-158) -/

/-- `POST /auth/complete-profile`.  Arguments beyond the request: `vo` is the
verifier's outcome for this request's token, `selectRaises` is `some msg`
when the existence select raises a transport exception, `ins n` is the
outcome of the n-th insert call of this request, `st` the store state. -/
def complete_profile (c : Config) (profile_data : CompleteProfileRequest)
    (authorization : String) (vo : VerifyOutcome) (selectRaises : Option String)
    (ins : Nat → InsertOutcome) (st : StoreState) : EndpointResult :=
  if !supabasePresent c || !supabaseAdminPresent c then
    ⟨.err 500 "Supabase not configured", st, []⟩
  else if !valid_roles.contains profile_data.role then
    ⟨.err 400 "Invalid role. Must be one of: ['elderly', 'family_supervisor', 'professional']", st, []⟩
  else if !pyStartsWith authorization "Bearer " then
    ⟨.err 401 "Invalid authorization header", st, []⟩
  else
    let token := extractToken authorization
    match vo with
    | .raises msg => ⟨.err 500 msg, st, [.verifyToken token]⟩
    | .user none => ⟨.err 401 "Invalid token", st, [.verifyToken token]⟩
    | .user (some user) =>
      match selectRaises with
      | some msg => ⟨.err 500 msg, st, [.verifyToken token, .selectUsers user.id]⟩
      | none =>
        let calls0 : List ExtCall := [.verifyToken token, .selectUsers user.id]
        if st.users.filter (fun r => r.id == user.id) ≠ [] then
          ⟨.err 400 "Profile already exists", st, calls0⟩
        else
          let metadata := metadataOf user
          let new_user : UserRecord :=
            { id := user.id, email := user.email, full_name := profile_data.full_name
              avatar_url := avatarFrom metadata, phone := profile_data.phone
              role := profile_data.role, emergency_contact := none }
          match ins 0 with
          | .raises msg => ⟨.err 500 msg, st, calls0 ++ [.insertUser new_user]⟩
          | .returnsNoRows =>
            ⟨.err 500 "Failed to create profile", st, calls0 ++ [.insertUser new_user]⟩
          | .returnsRows =>
            ⟨.ok ⟨new_user.id, new_user.email, new_user.full_name, new_user.avatar_url,
                  new_user.phone, new_user.role⟩,
             { st with users := st.users ++ [new_user] },
             calls0 ++ [.insertUser new_user]⟩

/-! ### GET /auth/me (src/api/index.py lines 161-196) -/

def get_me (c : Config) (authorization : String) (vo : VerifyOutcome)
    (selectRaises : Option String) (st : StoreState) : EndpointResult :=
  if !supabasePresent c || !supabaseAdminPresent c then
    ⟨.err 500 "Supabase not configured", st, []⟩
  else if !pyStartsWith authorization "Bearer " then
    ⟨.err 401 "Invalid authorization header", st, []⟩
  else
    let token := extractToken authorization
    match vo with
    | .raises msg => ⟨.err 500 msg, st, [.verifyToken token]⟩
    | .user none => ⟨.err 401 "Invalid token", st, [.verifyToken token]⟩
    | .user (some user) =>
      match selectRaises with
      | some msg => ⟨.err 500 msg, st, [.verifyToken token, .selectUsers user.id]⟩
      | none =>
        match st.users.filter (fun r => r.id == user.id) with
        | [] => ⟨.err 404 "Profile not found", st, [.verifyToken token, .selectUsers user.id]⟩
        | profile :: _ =>
          ⟨.ok ⟨profile.id, profile.email, profile.full_name, profile.avatar_url,
                profile.phone, profile.role⟩,
           st, [.verifyToken token, .selectUsers user.id]⟩

/-! ### POST /auth/complete-professional (src/api/index.py lines 199-262) -/

def complete_professional (c : Config) (data : CompleteProfessionalRequest)
    (authorization : String) (vo : VerifyOutcome) (selectRaises : Option String)
    (ins : Nat → InsertOutcome) (st : StoreState) : EndpointResult :=
  if !supabasePresent c || !supabaseAdminPresent c then
    ⟨.err 500 "Supabase not configured", st, []⟩
  else if !pyStartsWith authorization "Bearer " then
    ⟨.err 401 "Invalid authorization header", st, []⟩
  else
    let token := extractToken authorization
    match vo with
    | .raises msg => ⟨.err 500 msg, st, [.verifyToken token]⟩
    | .user none => ⟨.err 401 "Invalid token", st, [.verifyToken token]⟩
    | .user (some user) =>
      match selectRaises with
      | some msg => ⟨.err 500 msg, st, [.verifyToken token, .selectUsers user.id]⟩
      | none =>
        let calls0 : List ExtCall := [.verifyToken token, .selectUsers user.id]
        if st.users.filter (fun r => r.id == user.id) ≠ [] then
          ⟨.err 400 "Profile already exists", st, calls0⟩
        else
          let metadata := metadataOf user
          let new_user : UserRecord :=
            { id := user.id, email := user.email, full_name := data.full_name
              avatar_url := avatarFrom metadata, phone := some data.phone
              role := "professional", emergency_contact := none }
          match ins 0 with
          | .raises msg => ⟨.err 500 msg, st, calls0 ++ [.insertUser new_user]⟩
          | .returnsNoRows =>
            ⟨.err 500 "Failed to create user profile", st, calls0 ++ [.insertUser new_user]⟩
          | .returnsRows =>
            let st1 : StoreState := { st with users := st.users ++ [new_user] }
            let professional_profile : ProfessionalRecord :=
              { user_id := user.id, professional_email := data.professional_email
                specialization := data.specialization, workplace := pyOrNone data.workplace }
            let calls1 := calls0 ++ [ExtCall.insertUser new_user,
                                     ExtCall.insertProfessional professional_profile]
            match ins 1 with
            | .raises msg => ⟨.err 500 msg, st1, calls1⟩
            | .returnsNoRows => ⟨.err 500 "Failed to create professional profile", st1, calls1⟩
            | .returnsRows =>
              ⟨.ok ⟨new_user.id, new_user.email, new_user.full_name, new_user.avatar_url,
                    new_user.phone, new_user.role⟩,
               { st1 with professional_profiles := st1.professional_profiles ++ [professional_profile] },
               calls1⟩

/-! ### POST /auth/complete-caregiver (src/api/index.py lines 265-363) -/

/-- One of the three medical-info loops (index.py lines 327-349): for each
name, issue one insert of a row tagged `info_type`, with `elderly_id` and
`added_by` both the verified identity's id.  The `execute()` result is never
inspected, so an insert returning no rows is ignored and the loop continues;
a raised exception aborts the loop and propagates.  Returns the rows actually
persisted, the calls issued, the next insert-call index, and the raised
message if any. -/
def medLoop (uid info_type : String) (ins : Nat → InsertOutcome) :
    List String → Nat → List MedicalRecord × List ExtCall × Nat × Option String
  | [], i => ([], [], i, none)
  | name :: rest, i =>
    let r : MedicalRecord :=
      { elderly_id := uid, info_type := info_type, name := name, added_by := uid }
    match ins i with
    | .raises msg => ([], [.insertMedical r], i + 1, some msg)
    | .returnsRows =>
      let (rs, cs, i', e) := medLoop uid info_type ins rest (i + 1)
      (r :: rs, .insertMedical r :: cs, i', e)
    | .returnsNoRows =>
      let (rs, cs, i', e) := medLoop uid info_type ins rest (i + 1)
      (rs, .insertMedical r :: cs, i', e)

def complete_caregiver (c : Config) (data : CompleteCaregiverRequest)
    (authorization : String) (vo : VerifyOutcome) (selectRaises : Option String)
    (ins : Nat → InsertOutcome) (st : StoreState) : EndpointResult :=
  if !supabasePresent c || !supabaseAdminPresent c then
    ⟨.err 500 "Supabase not configured", st, []⟩
  else if !pyStartsWith authorization "Bearer " then
    ⟨.err 401 "Invalid authorization header", st, []⟩
  else
    let token := extractToken authorization
    match vo with
    | .raises msg => ⟨.err 500 msg, st, [.verifyToken token]⟩
    | .user none => ⟨.err 401 "Invalid token", st, [.verifyToken token]⟩
    | .user (some user) =>
      match selectRaises with
      | some msg => ⟨.err 500 msg, st, [.verifyToken token, .selectUsers user.id]⟩
      | none =>
        let calls0 : List ExtCall := [.verifyToken token, .selectUsers user.id]
        if st.users.filter (fun r => r.id == user.id) ≠ [] then
          ⟨.err 400 "Profile already exists", st, calls0⟩
        else
          let date_of_birth_iso := convertDOB data.date_of_birth
          let metadata := metadataOf user
          let new_user : UserRecord :=
            { id := user.id, email := user.email, full_name := data.full_name
              avatar_url := avatarFrom metadata, phone := some data.patient_phone
              role := "family_supervisor", emergency_contact := some data.caregiver_phone }
          match ins 0 with
          | .raises msg => ⟨.err 500 msg, st, calls0 ++ [.insertUser new_user]⟩
          | .returnsNoRows =>
            ⟨.err 500 "Failed to create user profile", st, calls0 ++ [.insertUser new_user]⟩
          | .returnsRows =>
            let st1 : StoreState := { st with users := st.users ++ [new_user] }
            let elderly_profile : ElderlyRecord :=
              { user_id := user.id, date_of_birth := date_of_birth_iso
                gender := data.gender, height_cm := data.height_cm
                weight_kg := data.weight_kg, home_address := data.address }
            let calls1 := calls0 ++ [ExtCall.insertUser new_user,
                                     ExtCall.insertElderly elderly_profile]
            match ins 1 with
            | .raises msg => ⟨.err 500 msg, st1, calls1⟩
            | .returnsNoRows => ⟨.err 500 "Failed to create elderly profile", st1, calls1⟩
            | .returnsRows =>
              let st2 : StoreState :=
                { st1 with elderly_profiles := st1.elderly_profiles ++ [elderly_profile] }
              let (rowsA, callsA, iA, errA) := medLoop user.id "allergy" ins data.allergies 2
              let stA : StoreState := { st2 with medical_info := st2.medical_info ++ rowsA }
              match errA with
              | some msg => ⟨.err 500 msg, stA, calls1 ++ callsA⟩
              | none =>
                let (rowsC, callsC, iC, errC) := medLoop user.id "condition" ins data.conditions iA
                let stC : StoreState := { stA with medical_info := stA.medical_info ++ rowsC }
                match errC with
                | some msg => ⟨.err 500 msg, stC, calls1 ++ callsA ++ callsC⟩
                | none =>
                  let (rowsM, callsM, _, errM) :=
                    medLoop user.id "medication" ins data.medications iC
                  let stM : StoreState := { stC with medical_info := stC.medical_info ++ rowsM }
                  match errM with
                  | some msg => ⟨.err 500 msg, stM, calls1 ++ callsA ++ callsC ++ callsM⟩
                  | none =>
                    ⟨.ok ⟨new_user.id, new_user.email, new_user.full_name, new_user.avatar_url,
                          new_user.phone, new_user.role⟩,
                     stM, calls1 ++ callsA ++ callsC ++ callsM⟩

/-! ### auth.py dependency get_current_user (src/auth.py lines 224-257)

auth.py's router obtains its single store client from a `database` module;
only the truthiness of that client matters here, passed as `hasSupabase`. -/

inductive CurrentUserResult
  | profile (p : UserRecord)
  | httpError (status : Nat) (detail : String)
deriving DecidableEq, Repr

/-- `get_current_user`: the dependency protecting auth.py routes.  Note the
order: the Bearer-prefix check precedes the configuration check, and its
generic exception handler maps any raised exception to 401 (auth.py line
257), unlike the index.py endpoints which map it to 500. -/
def get_current_user (hasSupabase : Bool) (authorization : String)
    (vo : VerifyOutcome) (selectRaises : Option String) (st : StoreState) :
    CurrentUserResult × List ExtCall :=
  if !pyStartsWith authorization "Bearer " then
    (.httpError 401 "Invalid authorization header", [])
  else
    let token := extractToken authorization
    if !hasSupabase then (.httpError 500 "Supabase not configured", [])
    else
      match vo with
      | .raises msg => (.httpError 401 msg, [.verifyToken token])
      | .user none => (.httpError 401 "Invalid token", [.verifyToken token])
      | .user (some user) =>
        match selectRaises with
        | some msg => (.httpError 401 msg, [.verifyToken token, .selectUsers user.id])
        | none =>
          match st.users.filter (fun r => r.id == user.id) with
          | [] =>
            (.httpError 403 "Profile not completed. Call /auth/complete-profile first.",
             [.verifyToken token, .selectUsers user.id])
          | p :: _ => (.profile p, [.verifyToken token, .selectUsers user.id])

/-! ### Derived record builders and abbreviations used in the statements -/

/-- The `users`-table dict built by `/auth/complete-profile` (index.py 131-138). -/
def profileUserRecord (u : AuthUser) (d : CompleteProfileRequest) : UserRecord :=
  ⟨u.id, u.email, d.full_name, avatarFrom (metadataOf u), d.phone, d.role, none⟩

/-- The `users`-table dict built by `/auth/complete-professional` (index.py 227-234). -/
def professionalUserRecord (u : AuthUser) (d : CompleteProfessionalRequest) : UserRecord :=
  ⟨u.id, u.email, d.full_name, avatarFrom (metadataOf u), some d.phone, "professional", none⟩

/-- The `professional_profiles` dict (index.py 240-245). -/
def professionalProfileRecord (u : AuthUser) (d : CompleteProfessionalRequest) :
    ProfessionalRecord :=
  ⟨u.id, d.professional_email, d.specialization, pyOrNone d.workplace⟩

/-- The `users`-table dict built by `/auth/complete-caregiver` (index.py 300-308). -/
def caregiverUserRecord (u : AuthUser) (d : CompleteCaregiverRequest) : UserRecord :=
  ⟨u.id, u.email, d.full_name, avatarFrom (metadataOf u), some d.patient_phone,
   "family_supervisor", some d.caregiver_phone⟩

/-- The `elderly_profiles` dict (index.py 314-321). -/
def caregiverElderlyRecord (u : AuthUser) (d : CompleteCaregiverRequest) : ElderlyRecord :=
  ⟨u.id, convertDOB d.date_of_birth, d.gender, d.height_cm, d.weight_kg, d.address⟩

/-- A `medical_info` row as built by the loops of index.py lines 327-349. -/
def medRec (uid ty n : String) : MedicalRecord := ⟨uid, ty, n, uid⟩

/-- The medical-info rows a caregiver request is supposed to insert, in
processing order: allergies, then conditions, then medications. -/
def medPlan (uid : String) (d : CompleteCaregiverRequest) : List MedicalRecord :=
  d.allergies.map (medRec uid "allergy") ++ d.conditions.map (medRec uid "condition")
    ++ d.medications.map (medRec uid "medication")

/-- The medical-info insert calls occurring in a trace, in order. -/
def medInsertsOf (calls : List ExtCall) : List MedicalRecord :=
  calls.filterMap (fun c => match c with | .insertMedical r => some r | _ => none)

/-- The combined effect of the three medical-info loops of
`complete_caregiver`, starting at insert-call index 2: rows persisted, calls
issued, and the first raised message if any.  Connected to the endpoint by
`complete_caregiver_eq_medPhase` below. -/
def medPhase (uid : String) (d : CompleteCaregiverRequest) (ins : Nat → InsertOutcome) :
    List MedicalRecord × List ExtCall × Option String :=
  let (rowsA, callsA, iA, errA) := medLoop uid "allergy" ins d.allergies 2
  match errA with
  | some m => (rowsA, callsA, some m)
  | none =>
    let (rowsC, callsC, iC, errC) := medLoop uid "condition" ins d.conditions iA
    match errC with
    | some m => (rowsA ++ rowsC, callsA ++ callsC, some m)
    | none =>
      let (rowsM, callsM, _, errM) := medLoop uid "medication" ins d.medications iC
      (rowsA ++ rowsC ++ rowsM, callsA ++ callsC ++ callsM, errM)

/-! ### Concrete fixtures used by witnesses and counterexamples -/

/-- All three environment values configured. -/
def cfgFull : Config := ⟨true, true, true⟩

/-- Empty external tables. -/
def storeEmpty : StoreState := ⟨[], [], [], []⟩

/-- A store transport in which every insert succeeds and echoes its row. -/
def insAllRows : Nat → InsertOutcome := fun _ => .returnsRows

/-- Identity metadata holding only a `picture` key. -/
def mdPictureOnly : Metadata := [("picture", "X")]

/-- A verified identity. -/
def sampleUser : AuthUser := ⟨"uid-1", "user@example.com", some mdPictureOnly⟩

/-- A generic-flow body with a valid role. -/
def profileBodyElderly : CompleteProfileRequest := ⟨"Alice", "elderly", none⟩

/-- A generic-flow body whose role is not one of the three enum values. -/
def profileBodyBadRole : CompleteProfileRequest := ⟨"Alice", "admin", none⟩

/-- A professional-flow body. -/
def professionalBody : CompleteProfessionalRequest :=
  ⟨"Bob", "123", "bob@work.example", "cardiology", none⟩

/-- The caregiver body of the spec's example: one allergy, no conditions,
one medication. -/
def caregiverBodyExample : CompleteCaregiverRequest :=
  ⟨"Carol", "111", "222", "15/03/1990", "female", 170, 70, "1 Main St",
   ["peanuts"], [], ["aspirin"]⟩

/-- Written from the amended C7 claim's words, as the refinement target to
compare with the code's `avatarFrom`: prefer `metadata.avatar_url` when that
key is present with a non-empty value; otherwise fall back to
`metadata.picture`'s value when that key is present; otherwise absent. -/
def avatarAmendedRule (md : Metadata) : Option String :=
  match dictGet md "avatar_url" with
  | some s => if s ≠ "" then some s else dictGet md "picture"
  | none => dictGet md "picture"

/-! ### Lemmas about the medical-info loops -/

theorem medLoop_allRows (uid ty : String) (ins : Nat → InsertOutcome)
    (names : List String) (i : Nat)
    (h : ∀ j, j < names.length → ins (i + j) = .returnsRows) :
    medLoop uid ty ins names i =
      (names.map (medRec uid ty), names.map (fun n => .insertMedical (medRec uid ty n)),
       i + names.length, none) := by
  induction names generalizing i with
  | nil => simp [medLoop]
  | cons n rest ih =>
    have h0 : ins i = .returnsRows := by simpa using h 0 (Nat.succ_pos _)
    have hr : ∀ j, j < rest.length → ins (i + 1 + j) = .returnsRows := by
      intro j hj
      have := h (j + 1) (Nat.succ_lt_succ hj)
      simpa [Nat.add_comm, Nat.add_assoc, Nat.add_left_comm] using this
    simp only [medLoop, h0, ih (i + 1) hr, List.map_cons, List.length_cons, medRec,
      Prod.mk.injEq]
    refine ⟨trivial, trivial, by omega, trivial⟩

theorem medLoop_allNoRows (uid ty : String) (ins : Nat → InsertOutcome)
    (names : List String) (i : Nat)
    (h : ∀ j, j < names.length → ins (i + j) = .returnsNoRows) :
    medLoop uid ty ins names i =
      ([], names.map (fun n => .insertMedical (medRec uid ty n)), i + names.length, none) := by
  induction names generalizing i with
  | nil => simp [medLoop]
  | cons n rest ih =>
    have h0 : ins i = .returnsNoRows := by simpa using h 0 (Nat.succ_pos _)
    have hr : ∀ j, j < rest.length → ins (i + 1 + j) = .returnsNoRows := by
      intro j hj
      have := h (j + 1) (Nat.succ_lt_succ hj)
      simpa [Nat.add_comm, Nat.add_assoc, Nat.add_left_comm] using this
    simp only [medLoop, h0, ih (i + 1) hr, List.map_cons, List.length_cons, medRec,
      Prod.mk.injEq]
    refine ⟨trivial, trivial, by omega, trivial⟩

theorem medLoop_raiseAt (uid ty : String) (ins : Nat → InsertOutcome)
    (names : List String) (i k : Nat) (m : String) (hk : k < names.length)
    (hpre : ∀ j, j < k → ins (i + j) = .returnsRows)
    (hraise : ins (i + k) = .raises m) :
    medLoop uid ty ins names i =
      ((names.take k).map (medRec uid ty),
       (names.take (k + 1)).map (fun n => .insertMedical (medRec uid ty n)),
       i + k + 1, some m) := by
  induction names generalizing i k with
  | nil => simp at hk
  | cons n rest ih =>
    cases k with
    | zero =>
      simp only [Nat.add_zero] at hraise
      simp [medLoop, hraise, medRec]
    | succ k' =>
      have h0 : ins i = .returnsRows := by simpa using hpre 0 (Nat.succ_pos _)
      have hk' : k' < rest.length := Nat.lt_of_succ_lt_succ hk
      have hpre' : ∀ j, j < k' → ins (i + 1 + j) = .returnsRows := by
        intro j hj
        have := hpre (j + 1) (Nat.succ_lt_succ hj)
        simpa [Nat.add_comm, Nat.add_assoc, Nat.add_left_comm] using this
      have hraise' : ins (i + 1 + k') = .raises m := by
        have : i + 1 + k' = i + (k' + 1) := by omega
        rw [this]; exact hraise
      simp only [medLoop, h0, ih (i + 1) k' hk' hpre' hraise', List.take_succ_cons,
        List.map_cons, medRec, Prod.mk.injEq]
      refine ⟨trivial, trivial, by omega, trivial⟩

/-! ### Path lemmas for the onboarding endpoints -/

theorem complete_profile_success (c : Config) (d : CompleteProfileRequest)
    (authorization : String) (u : AuthUser) (ins : Nat → InsertOutcome) (st : StoreState)
    (hc : supabasePresent c = true) (ha : supabaseAdminPresent c = true)
    (hrole : valid_roles.contains d.role = true)
    (hb : pyStartsWith authorization "Bearer " = true)
    (hfilter : st.users.filter (fun r => r.id == u.id) = [])
    (h0 : ins 0 = .returnsRows) :
    complete_profile c d authorization (.user (some u)) none ins st =
      ⟨.ok ⟨u.id, u.email, d.full_name, avatarFrom (metadataOf u), d.phone, d.role⟩,
       { st with users := st.users ++ [profileUserRecord u d] },
       [.verifyToken (extractToken authorization), .selectUsers u.id,
        .insertUser (profileUserRecord u d)]⟩ := by
  have hrole' : d.role ∈ valid_roles := by simpa using hrole
  simp [complete_profile, hc, ha, hrole', hb, hfilter, h0, profileUserRecord]

theorem complete_caregiver_eq_medPhase (c : Config) (data : CompleteCaregiverRequest)
    (authorization : String) (u : AuthUser) (ins : Nat → InsertOutcome) (st : StoreState)
    (hc : supabasePresent c = true) (ha : supabaseAdminPresent c = true)
    (hb : pyStartsWith authorization "Bearer " = true)
    (hfilter : st.users.filter (fun r => r.id == u.id) = [])
    (h0 : ins 0 = .returnsRows) (h1 : ins 1 = .returnsRows) :
    complete_caregiver c data authorization (.user (some u)) none ins st =
      ⟨(match (medPhase u.id data ins).2.2 with
        | some m => .err 500 m
        | none => .ok ⟨u.id, u.email, data.full_name, avatarFrom (metadataOf u),
                       some data.patient_phone, "family_supervisor"⟩),
       { users := st.users ++ [caregiverUserRecord u data]
         professional_profiles := st.professional_profiles
         elderly_profiles := st.elderly_profiles ++ [caregiverElderlyRecord u data]
         medical_info := st.medical_info ++ (medPhase u.id data ins).1 },
       [.verifyToken (extractToken authorization), .selectUsers u.id,
        .insertUser (caregiverUserRecord u data),
        .insertElderly (caregiverElderlyRecord u data)]
         ++ (medPhase u.id data ins).2.1⟩ := by
  rcases hA : medLoop u.id "allergy" ins data.allergies 2 with ⟨rowsA, callsA, iA, errA⟩
  cases errA with
  | some m =>
    simp [complete_caregiver, medPhase, hA, hc, ha, hb, hfilter, h0, h1,
      caregiverUserRecord, caregiverElderlyRecord]
  | none =>
    rcases hC : medLoop u.id "condition" ins data.conditions iA with ⟨rowsC, callsC, iC, errC⟩
    cases errC with
    | some m =>
      simp [complete_caregiver, medPhase, hA, hC, hc, ha, hb, hfilter, h0, h1,
        caregiverUserRecord, caregiverElderlyRecord, List.append_assoc]
    | none =>
      rcases hM : medLoop u.id "medication" ins data.medications iC with ⟨rowsM, callsM, iM, errM⟩
      cases errM with
      | some m =>
        simp [complete_caregiver, medPhase, hA, hC, hM, hc, ha, hb, hfilter, h0, h1,
          caregiverUserRecord, caregiverElderlyRecord, List.append_assoc]
      | none =>
        simp [complete_caregiver, medPhase, hA, hC, hM, hc, ha, hb, hfilter, h0, h1,
          caregiverUserRecord, caregiverElderlyRecord, List.append_assoc]

theorem medPhase_allRows (uid : String) (d : CompleteCaregiverRequest)
    (ins : Nat → InsertOutcome) (h : ∀ j, 2 ≤ j → ins j = .returnsRows) :
    medPhase uid d ins =
      (medPlan uid d, (medPlan uid d).map .insertMedical, none) := by
  have hA := medLoop_allRows uid "allergy" ins d.allergies 2
    (fun j _ => h _ (by omega))
  have hC := medLoop_allRows uid "condition" ins d.conditions (2 + d.allergies.length)
    (fun j _ => h _ (by omega))
  have hM := medLoop_allRows uid "medication" ins d.medications
    (2 + d.allergies.length + d.conditions.length) (fun j _ => h _ (by omega))
  simp [medPhase, hA, hC, hM, medPlan, List.map_append, List.map_map, Function.comp_def]

theorem medPhase_allNoRowsFrom2 (uid : String) (d : CompleteCaregiverRequest)
    (ins : Nat → InsertOutcome) (h : ∀ j, 2 ≤ j → ins j = .returnsNoRows) :
    medPhase uid d ins = ([], (medPlan uid d).map .insertMedical, none) := by
  have hA := medLoop_allNoRows uid "allergy" ins d.allergies 2
    (fun j _ => h _ (by omega))
  have hC := medLoop_allNoRows uid "condition" ins d.conditions (2 + d.allergies.length)
    (fun j _ => h _ (by omega))
  have hM := medLoop_allNoRows uid "medication" ins d.medications
    (2 + d.allergies.length + d.conditions.length) (fun j _ => h _ (by omega))
  simp [medPhase, hA, hC, hM, medPlan, List.map_append, List.map_map, Function.comp_def]

theorem medPhase_raiseAt (uid : String) (d : CompleteCaregiverRequest)
    (ins : Nat → InsertOutcome) (k : Nat) (m : String)
    (hk : k < (medPlan uid d).length)
    (hpre : ∀ j, j < k → ins (2 + j) = .returnsRows)
    (hraise : ins (2 + k) = .raises m) :
    medPhase uid d ins =
      ((medPlan uid d).take k, ((medPlan uid d).take (k + 1)).map .insertMedical, some m) := by
  have hlen : (medPlan uid d).length =
      d.allergies.length + d.conditions.length + d.medications.length := by
    simp [medPlan]; omega
  by_cases h1 : k < d.allergies.length
  · have hA := medLoop_raiseAt uid "allergy" ins d.allergies 2 k m h1
      (fun j hj => hpre j hj) hraise
    have ht : (medPlan uid d).take k = (d.allergies.take k).map (medRec uid "allergy") := by
      rw [medPlan, List.append_assoc, List.take_append_of_le_length (by simpa using h1.le),
        ← List.map_take]
    have ht1 : (medPlan uid d).take (k + 1) =
        (d.allergies.take (k + 1)).map (medRec uid "allergy") := by
      rw [medPlan, List.append_assoc, List.take_append_of_le_length (by simpa using h1),
        ← List.map_take]
    simp [medPhase, hA, ht, ht1, List.map_map, Function.comp_def]
  · have hApre : ∀ j, j < d.allergies.length → ins (2 + j) = .returnsRows :=
      fun j hj => hpre j (by omega)
    have hA := medLoop_allRows uid "allergy" ins d.allergies 2 hApre
    by_cases h2 : k < d.allergies.length + d.conditions.length
    · -- the raising insert is in the condition loop
      set k' := k - d.allergies.length with hk'
      have hkk : k = d.allergies.length + k' := by omega
      have hCpre : ∀ j, j < k' → ins (2 + d.allergies.length + j) = .returnsRows := by
        intro j hj
        have := hpre (d.allergies.length + j) (by omega)
        simpa [Nat.add_assoc] using this
      have hCraise : ins (2 + d.allergies.length + k') = .raises m := by
        have : 2 + d.allergies.length + k' = 2 + k := by omega
        rw [this]; exact hraise
      have hC := medLoop_raiseAt uid "condition" ins d.conditions
        (2 + d.allergies.length) k' m (by omega) hCpre hCraise
      have ht : (medPlan uid d).take k =
          d.allergies.map (medRec uid "allergy")
            ++ (d.conditions.take k').map (medRec uid "condition") := by
      -- take over the first block entirely, then k' into the second
        rw [medPlan, List.append_assoc, hkk]
        rw [show d.allergies.length + k' =
          (d.allergies.map (medRec uid "allergy")).length + k' by simp]
        rw [List.take_append, List.take_append_of_le_length (by simpa using (by omega : k' ≤ d.conditions.length)),
          ← List.map_take]
      have ht1 : (medPlan uid d).take (k + 1) =
          d.allergies.map (medRec uid "allergy")
            ++ (d.conditions.take (k' + 1)).map (medRec uid "condition") := by
        rw [medPlan, List.append_assoc]
        rw [show k + 1 = (d.allergies.map (medRec uid "allergy")).length + (k' + 1) by
          simp; omega]
        rw [List.take_append, List.take_append_of_le_length (by simpa using (by omega : k' + 1 ≤ d.conditions.length)),
          ← List.map_take]
      simp [medPhase, hA, hC, ht, ht1, List.map_map, List.map_append, Function.comp_def]
    · -- the raising insert is in the medication loop
      have hCpre : ∀ j, j < d.conditions.length →
          ins (2 + d.allergies.length + j) = .returnsRows := by
        intro j hj
        have := hpre (d.allergies.length + j) (by omega)
        simpa [Nat.add_assoc] using this
      have hC := medLoop_allRows uid "condition" ins d.conditions
        (2 + d.allergies.length) hCpre
      set k' := k - d.allergies.length - d.conditions.length with hk'
      have hkk : k = d.allergies.length + d.conditions.length + k' := by omega
      have hMpre : ∀ j, j < k' →
          ins (2 + d.allergies.length + d.conditions.length + j) = .returnsRows := by
        intro j hj
        have := hpre (d.allergies.length + d.conditions.length + j) (by omega)
        simpa [Nat.add_assoc] using this
      have hMraise : ins (2 + d.allergies.length + d.conditions.length + k') = .raises m := by
        have : 2 + d.allergies.length + d.conditions.length + k' = 2 + k := by omega
        rw [this]; exact hraise
      have hM := medLoop_raiseAt uid "medication" ins d.medications
        (2 + d.allergies.length + d.conditions.length) k' m (by omega) hMpre hMraise
      have hAB : ∀ n, n ≤ d.medications.length → (medPlan uid d).take
          (d.allergies.length + d.conditions.length + n) =
          d.allergies.map (medRec uid "allergy") ++ d.conditions.map (medRec uid "condition")
            ++ (d.medications.take n).map (medRec uid "medication") := by
        intro n hn
        rw [medPlan]
        rw [show d.allergies.length + d.conditions.length + n =
          (d.allergies.map (medRec uid "allergy")
            ++ d.conditions.map (medRec uid "condition")).length + n by simp]
        rw [List.take_append, ← List.map_take]
      have ht : (medPlan uid d).take k =
          d.allergies.map (medRec uid "allergy") ++ d.conditions.map (medRec uid "condition")
            ++ (d.medications.take k').map (medRec uid "medication") := by
        rw [hkk]; exact hAB k' (by omega)
      have ht1 : (medPlan uid d).take (k + 1) =
          d.allergies.map (medRec uid "allergy") ++ d.conditions.map (medRec uid "condition")
            ++ (d.medications.take (k' + 1)).map (medRec uid "medication") := by
        rw [show k + 1 = d.allergies.length + d.conditions.length + (k' + 1) by omega]
        exact hAB (k' + 1) (by omega)
      simp [medPhase, hA, hC, hM, ht, ht1, List.map_map, List.map_append, Function.comp_def]

/-! ### Claim theorems -/

/-- C9: `GET /health` reports `service_role_enabled: true` iff a distinct
elevated (service-role) client was constructed at startup, which requires
both the store url and the service-role key; when the admin client fell back
to the restricted anon client, or no store client exists at all, it reports
`false`. -/
theorem c9_health_service_role_flag (c : Config) :
    ((health_check c).service_role_enabled = true ↔
      c.hasUrl = true ∧ c.hasServiceKey = true)
    ∧ (adminClient c = .sameAsAnon → (health_check c).service_role_enabled = false)
    ∧ (adminClient c = .disabled → (health_check c).service_role_enabled = false) := by
  rcases c with ⟨u, a, s⟩
  cases u <;> cases a <;> cases s <;> decide

theorem c9_health_service_role_flag_witness :
    adminClient ⟨true, true, false⟩ = .sameAsAnon
    ∧ (health_check ⟨true, true, false⟩).service_role_enabled = false :=
  ⟨by decide, (c9_health_service_role_flag ⟨true, true, false⟩).2.1 (by decide)⟩

/-- C10: token extraction removes every occurrence of the substring
`"Bearer "`, not only the leading scheme prefix: for the header
`"Bearer Bearer abc"` (whose token part after the prefix is `"Bearer abc"`),
the string handed to the external verifier is `"abc"`, which differs from
the suffix following the prefix. -/
theorem c10_extraction_removes_all_bearer_occurrences :
    pyStartsWith "Bearer Bearer abc" "Bearer " = true
    ∧ extractToken "Bearer Bearer abc" = "abc"
    ∧ String.mk (("Bearer Bearer abc").data.drop 7) = "Bearer abc"
    ∧ (complete_profile cfgFull profileBodyElderly "Bearer Bearer abc" (.user none) none
        insAllRows storeEmpty).calls = [.verifyToken "abc"]
    ∧ "abc" ≠ "Bearer abc" := by decide

/-- C6: in the caregiver flow a date-of-birth splitting into exactly three
slash-separated components d, m, y is stored as "y-m-d"; any other shape
passes through unchanged and the request does not fail on that account; the
elderly row's stored date is exactly `convertDOB` of the request's string. -/
theorem c6_date_of_birth_conversion :
    (∀ s d m y, pySplit s "/" = [d, m, y] → convertDOB s = y ++ "-" ++ m ++ "-" ++ d)
    ∧ (∀ s, (pySplit s "/").length ≠ 3 → convertDOB s = s)
    ∧ convertDOB "15/03/1990" = "1990-03-15"
    ∧ convertDOB "1990-03-15" = "1990-03-15"
    ∧ (∀ (c : Config) (data : CompleteCaregiverRequest) (authorization : String)
        (u : AuthUser) (ins : Nat → InsertOutcome) (st : StoreState),
        supabasePresent c = true → supabaseAdminPresent c = true →
        pyStartsWith authorization "Bearer " = true →
        st.users.filter (fun r => r.id == u.id) = [] →
        (∀ i, ins i = .returnsRows) →
        (complete_caregiver c data authorization (.user (some u)) none ins st).response.statusCode
            = 200
        ∧ ExtCall.insertElderly (caregiverElderlyRecord u data) ∈
            (complete_caregiver c data authorization (.user (some u)) none ins st).calls
        ∧ (caregiverElderlyRecord u data).date_of_birth = convertDOB data.date_of_birth) := by
  refine ⟨?_, ?_, by decide, by decide, ?_⟩
  · intro s d m y h
    simp [convertDOB, h]
  · intro s h
    simp only [convertDOB]
    split
    · rename_i d m y heq
      exact absurd (by rw [heq]; rfl) h
    · rfl
  · intro c data authorization u ins st hc ha hb hfilter hall
    rw [complete_caregiver_eq_medPhase c data authorization u ins st hc ha hb hfilter
      (hall 0) (hall 1), medPhase_allRows u.id data ins (fun j _ => hall j)]
    refine ⟨rfl, by simp, rfl⟩

theorem c6_date_of_birth_conversion_witness :
    pySplit "15/03/1990" "/" = ["15", "03", "1990"]
    ∧ convertDOB "15/03/1990" = "1990" ++ "-" ++ "03" ++ "-" ++ "15" :=
  ⟨by decide, c6_date_of_birth_conversion.1 "15/03/1990" "15" "03" "1990" (by decide)⟩

/-- C7 as stated is false on the code: with metadata in which the key
`avatar_url` is present (with the empty string as value) and `picture`
maps to `"X"`, the created profile's `avatar_url` is `"X"`, not the present
`avatar_url` value, because the Python `or` treats the empty string as falsy. -/
theorem c7_counterexample_empty_avatar_url :
    dictGet [("avatar_url", ""), ("picture", "X")] "avatar_url" = some ""
    ∧ avatarFrom [("avatar_url", ""), ("picture", "X")] = some "X"
    ∧ (complete_profile cfgFull profileBodyElderly "Bearer t"
        (.user (some ⟨"uid-1", "user@example.com",
          some [("avatar_url", ""), ("picture", "X")]⟩))
        none insAllRows storeEmpty).store.users =
        [⟨"uid-1", "user@example.com", "Alice", some "X", none, "elderly", none⟩]
    ∧ (some "X" : Option String) ≠ some "" := by decide

/-- C7 amended: the created profile's `avatar_url` equals `metadata.avatar_url`
when that key is present with a non-empty value, otherwise equals
`metadata.picture` when that key is present, and is absent otherwise; in
particular metadata `{picture: "X"}` with no `avatar_url` key yields `"X"`. -/
theorem c7_avatar_metadata_fallback :
    (∀ md : Metadata, avatarFrom md = avatarAmendedRule md)
    ∧ (∀ (c : Config) (d : CompleteProfileRequest) (authorization : String)
        (u : AuthUser) (ins : Nat → InsertOutcome) (st : StoreState),
        supabasePresent c = true → supabaseAdminPresent c = true →
        valid_roles.contains d.role = true →
        pyStartsWith authorization "Bearer " = true →
        st.users.filter (fun r => r.id == u.id) = [] →
        ins 0 = .returnsRows →
        (complete_profile c d authorization (.user (some u)) none ins st).store.users =
          st.users ++ [profileUserRecord u d]
        ∧ (profileUserRecord u d).avatar_url = avatarAmendedRule (metadataOf u))
    ∧ avatarFrom [("picture", "X")] = some "X" := by
  have hrule : ∀ md : Metadata, avatarFrom md = avatarAmendedRule md := by
    intro md
    unfold avatarFrom avatarAmendedRule pyOr
    rcases dictGet md "avatar_url" with _ | s
    · rfl
    · by_cases hs : s = "" <;> simp [hs]
  refine ⟨hrule, ?_, by decide⟩
  intro c d authorization u ins st hc ha hrole hb hfilter h0
  rw [complete_profile_success c d authorization u ins st hc ha hrole hb hfilter h0]
  exact ⟨rfl, hrule (metadataOf u)⟩

theorem c7_avatar_metadata_fallback_witness :
    avatarAmendedRule mdPictureOnly = some "X"
    ∧ ((complete_profile cfgFull profileBodyElderly "Bearer t" (.user (some sampleUser)) none
          insAllRows storeEmpty).store.users =
        storeEmpty.users ++ [profileUserRecord sampleUser profileBodyElderly]
      ∧ (profileUserRecord sampleUser profileBodyElderly).avatar_url =
        avatarAmendedRule (metadataOf sampleUser)) :=
  ⟨by decide, c7_avatar_metadata_fallback.2.1 cfgFull profileBodyElderly "Bearer t" sampleUser
    insAllRows storeEmpty (by decide) (by decide) (by decide) (by decide) (by decide)
    (by decide)⟩

/-- C1 as stated is false on the code: with a well-formed `Bearer` header,
when the external verifier raises (e.g. an expired token), the index.py
routes map the exception to HTTP 500, not 401. -/
theorem c1_counterexample_verifier_raise_gives_500 :
    (complete_profile cfgFull profileBodyElderly "Bearer expired" (.raises "Token expired")
        none insAllRows storeEmpty).response = .err 500 "Token expired"
    ∧ (complete_profile cfgFull profileBodyElderly "Bearer expired" (.raises "Token expired")
        none insAllRows storeEmpty).response.statusCode ≠ 401 := by decide

/-- C1 amended: on the four bearer-protected index.py routes, a token for
which the verifier returns no user fails with 401; a token on which the
verifier raises fails with 500 (the exception message as detail) — only
auth.py's `get_current_user` dependency maps a raising verifier to 401. -/
theorem c1_invalid_token_unauthorized :
    (∀ (c : Config) (d : CompleteProfileRequest) (a : String) (sel : Option String)
        (ins : Nat → InsertOutcome) (st : StoreState),
      supabasePresent c = true → supabaseAdminPresent c = true →
      valid_roles.contains d.role = true → pyStartsWith a "Bearer " = true →
      (complete_profile c d a (.user none) sel ins st).response = .err 401 "Invalid token"
      ∧ (∀ m, (complete_profile c d a (.raises m) sel ins st).response = .err 500 m))
    ∧ (∀ (c : Config) (d : CompleteProfessionalRequest) (a : String) (sel : Option String)
        (ins : Nat → InsertOutcome) (st : StoreState),
      supabasePresent c = true → supabaseAdminPresent c = true →
      pyStartsWith a "Bearer " = true →
      (complete_professional c d a (.user none) sel ins st).response = .err 401 "Invalid token"
      ∧ (∀ m, (complete_professional c d a (.raises m) sel ins st).response = .err 500 m))
    ∧ (∀ (c : Config) (d : CompleteCaregiverRequest) (a : String) (sel : Option String)
        (ins : Nat → InsertOutcome) (st : StoreState),
      supabasePresent c = true → supabaseAdminPresent c = true →
      pyStartsWith a "Bearer " = true →
      (complete_caregiver c d a (.user none) sel ins st).response = .err 401 "Invalid token"
      ∧ (∀ m, (complete_caregiver c d a (.raises m) sel ins st).response = .err 500 m))
    ∧ (∀ (c : Config) (a : String) (sel : Option String) (st : StoreState),
      supabasePresent c = true → supabaseAdminPresent c = true →
      pyStartsWith a "Bearer " = true →
      (get_me c a (.user none) sel st).response = .err 401 "Invalid token"
      ∧ (∀ m, (get_me c a (.raises m) sel st).response = .err 500 m))
    ∧ (∀ (hs : Bool) (a : String) (sel : Option String) (st : StoreState),
      hs = true → pyStartsWith a "Bearer " = true →
      (get_current_user hs a (.user none) sel st).1 = .httpError 401 "Invalid token"
      ∧ (∀ m, (get_current_user hs a (.raises m) sel st).1 = .httpError 401 m)) := by
  refine ⟨?_, ?_, ?_, ?_, ?_⟩
  · intro c d a sel ins st hc ha hrole hb
    have hrole' : d.role ∈ valid_roles := by simpa using hrole
    exact ⟨by simp [complete_profile, hc, ha, hrole', hb],
           fun m => by simp [complete_profile, hc, ha, hrole', hb]⟩
  · intro c d a sel ins st hc ha hb
    exact ⟨by simp [complete_professional, hc, ha, hb],
           fun m => by simp [complete_professional, hc, ha, hb]⟩
  · intro c d a sel ins st hc ha hb
    exact ⟨by simp [complete_caregiver, hc, ha, hb],
           fun m => by simp [complete_caregiver, hc, ha, hb]⟩
  · intro c a sel st hc ha hb
    exact ⟨by simp [get_me, hc, ha, hb], fun m => by simp [get_me, hc, ha, hb]⟩
  · intro hs a sel st hhs hb
    exact ⟨by simp [get_current_user, hhs, hb],
           fun m => by simp [get_current_user, hhs, hb]⟩

theorem c1_invalid_token_unauthorized_witness :
    pyStartsWith "Bearer bad" "Bearer " = true
    ∧ ((complete_profile cfgFull profileBodyElderly "Bearer bad" (.user none) none insAllRows
          storeEmpty).response = .err 401 "Invalid token"
      ∧ (∀ m, (complete_profile cfgFull profileBodyElderly "Bearer bad" (.raises m) none
          insAllRows storeEmpty).response = .err 500 m)) :=
  ⟨by decide, c1_invalid_token_unauthorized.1 cfgFull profileBodyElderly "Bearer bad" none
    insAllRows storeEmpty (by decide) (by decide) (by decide) (by decide)⟩

/-- C3 as stated is false on the code: on `/auth/complete-profile` the role
validation runs before the Authorization-header check, so a request whose
header lacks the `"Bearer "` prefix but whose body carries an invalid role
returns 400, not 401 (still with no external call). -/
theorem c3_counterexample_role_check_precedes_header_check :
    pyStartsWith "Basic xyz" "Bearer " = false
    ∧ valid_roles.contains profileBodyBadRole.role = false
    ∧ (complete_profile cfgFull profileBodyBadRole "Basic xyz" (.user none) none insAllRows
        storeEmpty).response.statusCode = 400
    ∧ (complete_profile cfgFull profileBodyBadRole "Basic xyz" (.user none) none insAllRows
        storeEmpty).calls = []
    ∧ (400 : Nat) ≠ 401 := by decide

/-- C3 amended: given configured store clients, a request whose Authorization
header does not start with `"Bearer "` returns 401 with no external call on
every bearer-protected route — except `/auth/complete-profile` when the
body's role is invalid, where the role check fires first and returns 400,
also with no external call; auth.py's `get_current_user` returns the 401
even without configured clients. -/
theorem c3_malformed_header_no_external_call :
    (∀ (c : Config) (d : CompleteProfileRequest) (a : String) (vo : VerifyOutcome)
        (sel : Option String) (ins : Nat → InsertOutcome) (st : StoreState),
      supabasePresent c = true → supabaseAdminPresent c = true →
      valid_roles.contains d.role = true → pyStartsWith a "Bearer " = false →
      complete_profile c d a vo sel ins st = ⟨.err 401 "Invalid authorization header", st, []⟩)
    ∧ (∀ (c : Config) (d : CompleteProfileRequest) (a : String) (vo : VerifyOutcome)
        (sel : Option String) (ins : Nat → InsertOutcome) (st : StoreState),
      supabasePresent c = true → supabaseAdminPresent c = true →
      valid_roles.contains d.role = false →
      (complete_profile c d a vo sel ins st).response.statusCode = 400
      ∧ (complete_profile c d a vo sel ins st).calls = []
      ∧ (complete_profile c d a vo sel ins st).store = st)
    ∧ (∀ (c : Config) (d : CompleteProfessionalRequest) (a : String) (vo : VerifyOutcome)
        (sel : Option String) (ins : Nat → InsertOutcome) (st : StoreState),
      supabasePresent c = true → supabaseAdminPresent c = true →
      pyStartsWith a "Bearer " = false →
      complete_professional c d a vo sel ins st =
        ⟨.err 401 "Invalid authorization header", st, []⟩)
    ∧ (∀ (c : Config) (d : CompleteCaregiverRequest) (a : String) (vo : VerifyOutcome)
        (sel : Option String) (ins : Nat → InsertOutcome) (st : StoreState),
      supabasePresent c = true → supabaseAdminPresent c = true →
      pyStartsWith a "Bearer " = false →
      complete_caregiver c d a vo sel ins st =
        ⟨.err 401 "Invalid authorization header", st, []⟩)
    ∧ (∀ (c : Config) (a : String) (vo : VerifyOutcome) (sel : Option String) (st : StoreState),
      supabasePresent c = true → supabaseAdminPresent c = true →
      pyStartsWith a "Bearer " = false →
      get_me c a vo sel st = ⟨.err 401 "Invalid authorization header", st, []⟩)
    ∧ (∀ (hs : Bool) (a : String) (vo : VerifyOutcome) (sel : Option String) (st : StoreState),
      pyStartsWith a "Bearer " = false →
      get_current_user hs a vo sel st = (.httpError 401 "Invalid authorization header", [])) := by
  refine ⟨?_, ?_, ?_, ?_, ?_, ?_⟩
  · intro c d a vo sel ins st hc ha hrole hb
    have hrole' : d.role ∈ valid_roles := by simpa using hrole
    simp [complete_profile, hc, ha, hrole', hb]
  · intro c d a vo sel ins st hc ha hrole
    have hrole' : d.role ∉ valid_roles := by simpa using hrole
    refine ⟨?_, ?_, ?_⟩ <;> simp [complete_profile, hc, ha, hrole', HTTPResult.statusCode]
  · intro c d a vo sel ins st hc ha hb
    simp [complete_professional, hc, ha, hb]
  · intro c d a vo sel ins st hc ha hb
    simp [complete_caregiver, hc, ha, hb]
  · intro c a vo sel st hc ha hb
    simp [get_me, hc, ha, hb]
  · intro hs a vo sel st hb
    simp [get_current_user, hb]

theorem c3_malformed_header_no_external_call_witness :
    pyStartsWith "Basic xyz" "Bearer " = false
    ∧ complete_profile cfgFull profileBodyElderly "Basic xyz" (.user none) none insAllRows
        storeEmpty = ⟨.err 401 "Invalid authorization header", storeEmpty, []⟩ :=
  ⟨by decide, c3_malformed_header_no_external_call.1 cfgFull profileBodyElderly "Basic xyz"
    (.user none) none insAllRows storeEmpty (by decide) (by decide) (by decide) (by decide)⟩

/-- C4: for a verified identity, a second sequential `/auth/complete-profile`
call after a first that returned 200 fails with 400 "Profile already exists",
performs no insert (its only external calls are the token verification and
the existence select), leaves the store unchanged, and the store holds
exactly one `users` row for that identity. -/
theorem c4_second_complete_profile_already_exists
    (c : Config) (d1 d2 : CompleteProfileRequest) (a1 a2 : String) (u u2 : AuthUser)
    (ins1 ins2 : Nat → InsertOutcome) (st0 : StoreState)
    (hc : supabasePresent c = true) (ha : supabaseAdminPresent c = true)
    (hrole1 : valid_roles.contains d1.role = true)
    (hrole2 : valid_roles.contains d2.role = true)
    (hb1 : pyStartsWith a1 "Bearer " = true) (hb2 : pyStartsWith a2 "Bearer " = true)
    (hid : u2.id = u.id)
    (hfilter : st0.users.filter (fun r => r.id == u.id) = [])
    (h0 : ins1 0 = .returnsRows) :
    (complete_profile c d1 a1 (.user (some u)) none ins1 st0).response.statusCode = 200
    ∧ (complete_profile c d2 a2 (.user (some u2)) none ins2
        (complete_profile c d1 a1 (.user (some u)) none ins1 st0).store).response =
        .err 400 "Profile already exists"
    ∧ (complete_profile c d2 a2 (.user (some u2)) none ins2
        (complete_profile c d1 a1 (.user (some u)) none ins1 st0).store).store =
        (complete_profile c d1 a1 (.user (some u)) none ins1 st0).store
    ∧ (∀ r : UserRecord, ExtCall.insertUser r ∉
        (complete_profile c d2 a2 (.user (some u2)) none ins2
          (complete_profile c d1 a1 (.user (some u)) none ins1 st0).store).calls)
    ∧ ((complete_profile c d2 a2 (.user (some u2)) none ins2
          (complete_profile c d1 a1 (.user (some u)) none ins1 st0).store).store.users.filter
        (fun r => r.id == u.id)).length = 1 := by
  rw [complete_profile_success c d1 a1 u ins1 st0 hc ha hrole1 hb1 hfilter h0]
  have hrole2' : d2.role ∈ valid_roles := by simpa using hrole2
  have hne : (st0.users ++ [profileUserRecord u d1]).filter (fun r => r.id == u2.id) =
      [profileUserRecord u d1] := by
    rw [List.filter_append]
    have h1 : st0.users.filter (fun r => r.id == u2.id) = [] := by rw [hid]; exact hfilter
    have h2 : (profileUserRecord u d1).id == u2.id := by simp [profileUserRecord, hid]
    simp [h1, h2]
  refine ⟨rfl, ?_, ?_, ?_, ?_⟩
  · simp [complete_profile, hc, ha, hrole2', hb2, hne]
  · simp [complete_profile, hc, ha, hrole2', hb2, hne]
  · intro r
    simp [complete_profile, hc, ha, hrole2', hb2, hne]
  · have hne0 : (st0.users ++ [profileUserRecord u d1]).filter (fun r => r.id == u.id) =
        [profileUserRecord u d1] := by
      rw [List.filter_append]
      simp [hfilter, profileUserRecord]
    simp [complete_profile, hc, ha, hrole2', hb2, hne, hne0]

theorem c4_second_complete_profile_already_exists_witness :
    storeEmpty.users.filter (fun r => r.id == sampleUser.id) = []
    ∧ ((complete_profile cfgFull profileBodyElderly "Bearer t" (.user (some sampleUser)) none
          insAllRows storeEmpty).response.statusCode = 200
      ∧ (complete_profile cfgFull profileBodyElderly "Bearer t" (.user (some sampleUser)) none
          insAllRows (complete_profile cfgFull profileBodyElderly "Bearer t"
            (.user (some sampleUser)) none insAllRows storeEmpty).store).response =
          .err 400 "Profile already exists"
      ∧ (complete_profile cfgFull profileBodyElderly "Bearer t" (.user (some sampleUser)) none
          insAllRows (complete_profile cfgFull profileBodyElderly "Bearer t"
            (.user (some sampleUser)) none insAllRows storeEmpty).store).store =
          (complete_profile cfgFull profileBodyElderly "Bearer t" (.user (some sampleUser)) none
            insAllRows storeEmpty).store
      ∧ (∀ r : UserRecord, ExtCall.insertUser r ∉
          (complete_profile cfgFull profileBodyElderly "Bearer t" (.user (some sampleUser)) none
            insAllRows (complete_profile cfgFull profileBodyElderly "Bearer t"
              (.user (some sampleUser)) none insAllRows storeEmpty).store).calls)
      ∧ ((complete_profile cfgFull profileBodyElderly "Bearer t" (.user (some sampleUser)) none
            insAllRows (complete_profile cfgFull profileBodyElderly "Bearer t"
              (.user (some sampleUser)) none insAllRows storeEmpty).store).store.users.filter
          (fun r => r.id == sampleUser.id)).length = 1) :=
  ⟨by decide, c4_second_complete_profile_already_exists cfgFull profileBodyElderly
    profileBodyElderly "Bearer t" "Bearer t" sampleUser sampleUser insAllRows insAllRows
    storeEmpty (by decide) (by decide) (by decide) (by decide) (by decide) (by decide) rfl
    (by decide) (by decide)⟩

/-- C8: the professional flow inserts the UserProfile with role forced to
"professional"; if the subsequent ProfessionalProfile insert fails (raises,
or returns no rows) after the UserProfile insert succeeded, the request ends
with HTTP 500 while the committed UserProfile row stays in the store and the
`professional_profiles` table is untouched — no compensating delete exists. -/
theorem c8_professional_partial_failure
    (c : Config) (d : CompleteProfessionalRequest) (a : String) (u : AuthUser)
    (ins : Nat → InsertOutcome) (st : StoreState)
    (hc : supabasePresent c = true) (ha : supabaseAdminPresent c = true)
    (hb : pyStartsWith a "Bearer " = true)
    (hfilter : st.users.filter (fun r => r.id == u.id) = [])
    (h0 : ins 0 = .returnsRows) :
    (professionalUserRecord u d).role = "professional"
    ∧ (∀ m, ins 1 = .raises m →
        complete_professional c d a (.user (some u)) none ins st =
          ⟨.err 500 m,
           { st with users := st.users ++ [professionalUserRecord u d] },
           [.verifyToken (extractToken a), .selectUsers u.id,
            .insertUser (professionalUserRecord u d),
            .insertProfessional (professionalProfileRecord u d)]⟩)
    ∧ (ins 1 = .returnsNoRows →
        complete_professional c d a (.user (some u)) none ins st =
          ⟨.err 500 "Failed to create professional profile",
           { st with users := st.users ++ [professionalUserRecord u d] },
           [.verifyToken (extractToken a), .selectUsers u.id,
            .insertUser (professionalUserRecord u d),
            .insertProfessional (professionalProfileRecord u d)]⟩) := by
  refine ⟨rfl, ?_, ?_⟩
  · intro m h1
    simp [complete_professional, hc, ha, hb, hfilter, h0, h1,
      professionalUserRecord, professionalProfileRecord]
  · intro h1
    simp [complete_professional, hc, ha, hb, hfilter, h0, h1,
      professionalUserRecord, professionalProfileRecord]

theorem c8_professional_partial_failure_witness :
    (fun i => if i = 0 then InsertOutcome.returnsRows else .raises "boom") 1 = .raises "boom"
    ∧ ((professionalUserRecord sampleUser professionalBody).role = "professional"
      ∧ (∀ m, (fun i => if i = 0 then InsertOutcome.returnsRows else .raises "boom") 1
            = .raises m →
          complete_professional cfgFull professionalBody "Bearer t" (.user (some sampleUser))
            none (fun i => if i = 0 then InsertOutcome.returnsRows else .raises "boom")
            storeEmpty =
            ⟨.err 500 m,
             { storeEmpty with users :=
                storeEmpty.users ++ [professionalUserRecord sampleUser professionalBody] },
             [.verifyToken (extractToken "Bearer t"), .selectUsers sampleUser.id,
              .insertUser (professionalUserRecord sampleUser professionalBody),
              .insertProfessional (professionalProfileRecord sampleUser professionalBody)]⟩)
      ∧ ((fun i => if i = 0 then InsertOutcome.returnsRows else .raises "boom") 1
            = .returnsNoRows →
          complete_professional cfgFull professionalBody "Bearer t" (.user (some sampleUser))
            none (fun i => if i = 0 then InsertOutcome.returnsRows else .raises "boom")
            storeEmpty =
            ⟨.err 500 "Failed to create professional profile",
             { storeEmpty with users :=
                storeEmpty.users ++ [professionalUserRecord sampleUser professionalBody] },
             [.verifyToken (extractToken "Bearer t"), .selectUsers sampleUser.id,
              .insertUser (professionalUserRecord sampleUser professionalBody),
              .insertProfessional (professionalProfileRecord sampleUser professionalBody)]⟩)) :=
  ⟨by decide, c8_professional_partial_failure cfgFull professionalBody "Bearer t" sampleUser
    (fun i => if i = 0 then InsertOutcome.returnsRows else .raises "boom") storeEmpty
    (by decide) (by decide) (by decide) (by decide) (by decide)⟩

/-- C5: a successful caregiver onboarding issues exactly one `medical_info`
insert per entry of each supplied list — allergies tagged "allergy",
conditions tagged "condition", medications tagged "medication" — in order,
each with `added_by` (and `elderly_id`) equal to the verified identity's id,
and those rows are persisted after the request. -/
theorem c5_caregiver_one_medical_row_per_entry
    (c : Config) (data : CompleteCaregiverRequest) (a : String) (u : AuthUser)
    (ins : Nat → InsertOutcome) (st : StoreState)
    (hc : supabasePresent c = true) (ha : supabaseAdminPresent c = true)
    (hb : pyStartsWith a "Bearer " = true)
    (hfilter : st.users.filter (fun r => r.id == u.id) = [])
    (hall : ∀ i, ins i = .returnsRows) :
    (complete_caregiver c data a (.user (some u)) none ins st).response.statusCode = 200
    ∧ medInsertsOf (complete_caregiver c data a (.user (some u)) none ins st).calls =
        medPlan u.id data
    ∧ (complete_caregiver c data a (.user (some u)) none ins st).store.medical_info =
        st.medical_info ++ medPlan u.id data
    ∧ medPlan u.id data =
        data.allergies.map (medRec u.id "allergy")
          ++ data.conditions.map (medRec u.id "condition")
          ++ data.medications.map (medRec u.id "medication")
    ∧ (∀ r ∈ medPlan u.id data, r.added_by = u.id ∧ r.elderly_id = u.id) := by
  rw [complete_caregiver_eq_medPhase c data a u ins st hc ha hb hfilter (hall 0) (hall 1),
    medPhase_allRows u.id data ins (fun j _ => hall j)]
  refine ⟨rfl, ?_, rfl, by rw [medPlan], ?_⟩
  · simp [medInsertsOf, List.filterMap_map, Function.comp_def, extractToken]
  · intro r hr
    simp only [medPlan, List.mem_append, List.mem_map] at hr
    rcases hr with (⟨n, _, rfl⟩ | ⟨n, _, rfl⟩) | ⟨n, _, rfl⟩ <;> exact ⟨rfl, rfl⟩

theorem c5_caregiver_one_medical_row_per_entry_witness :
    medPlan sampleUser.id caregiverBodyExample =
      [⟨"uid-1", "allergy", "peanuts", "uid-1"⟩, ⟨"uid-1", "medication", "aspirin", "uid-1"⟩]
    ∧ ((complete_caregiver cfgFull caregiverBodyExample "Bearer t" (.user (some sampleUser))
          none insAllRows storeEmpty).response.statusCode = 200
      ∧ medInsertsOf (complete_caregiver cfgFull caregiverBodyExample "Bearer t"
          (.user (some sampleUser)) none insAllRows storeEmpty).calls =
          medPlan sampleUser.id caregiverBodyExample
      ∧ (complete_caregiver cfgFull caregiverBodyExample "Bearer t" (.user (some sampleUser))
          none insAllRows storeEmpty).store.medical_info =
          storeEmpty.medical_info ++ medPlan sampleUser.id caregiverBodyExample
      ∧ medPlan sampleUser.id caregiverBodyExample =
          caregiverBodyExample.allergies.map (medRec sampleUser.id "allergy")
            ++ caregiverBodyExample.conditions.map (medRec sampleUser.id "condition")
            ++ caregiverBodyExample.medications.map (medRec sampleUser.id "medication")
      ∧ (∀ r ∈ medPlan sampleUser.id caregiverBodyExample,
          r.added_by = sampleUser.id ∧ r.elderly_id = sampleUser.id)) :=
  ⟨by decide, c5_caregiver_one_medical_row_per_entry cfgFull caregiverBodyExample "Bearer t"
    sampleUser insAllRows storeEmpty (by decide) (by decide) (by decide) (by decide)
    (fun i => rfl)⟩

/-- C2 as stated is false on the code: the `medical_info` insert results are
never inspected, so a MedicalInfo insert that returns no rows does not raise
InternalError — here such a request completes with HTTP 200 (and the row was
silently not persisted). -/
theorem c2_counterexample_medical_insert_no_rows_ignored :
    (fun i => if i < 2 then InsertOutcome.returnsRows else .returnsNoRows) 2 = .returnsNoRows
    ∧ (complete_caregiver cfgFull caregiverBodyExample "Bearer t" (.user (some sampleUser)) none
        (fun i => if i < 2 then InsertOutcome.returnsRows else .returnsNoRows)
        storeEmpty).response.statusCode = 200
    ∧ (complete_caregiver cfgFull caregiverBodyExample "Bearer t" (.user (some sampleUser)) none
        (fun i => if i < 2 then InsertOutcome.returnsRows else .returnsNoRows)
        storeEmpty).store.medical_info = []
    ∧ (200 : Nat) ≠ 500 := by decide

/-- C2 amended: in the caregiver chain, a failing UserProfile or
ElderlyProfile insert (raising, or returning no rows) ends the request with
HTTP 500 immediately, and a raising MedicalInfo insert ends it with HTTP 500
with no further insert attempted; in every such case the rows already
written earlier in the request stay in the store (no rollback).  A
MedicalInfo insert that returns no rows without raising is however ignored:
the request proceeds and can still return 200. -/
theorem c2_caregiver_chain_failure_behaviour
    (c : Config) (data : CompleteCaregiverRequest) (a : String) (u : AuthUser)
    (ins : Nat → InsertOutcome) (st : StoreState)
    (hc : supabasePresent c = true) (ha : supabaseAdminPresent c = true)
    (hb : pyStartsWith a "Bearer " = true)
    (hfilter : st.users.filter (fun r => r.id == u.id) = []) :
    (∀ m, ins 0 = .raises m →
      complete_caregiver c data a (.user (some u)) none ins st =
        ⟨.err 500 m, st,
         [.verifyToken (extractToken a), .selectUsers u.id,
          .insertUser (caregiverUserRecord u data)]⟩)
    ∧ (ins 0 = .returnsNoRows →
      complete_caregiver c data a (.user (some u)) none ins st =
        ⟨.err 500 "Failed to create user profile", st,
         [.verifyToken (extractToken a), .selectUsers u.id,
          .insertUser (caregiverUserRecord u data)]⟩)
    ∧ (∀ m, ins 0 = .returnsRows → ins 1 = .raises m →
      complete_caregiver c data a (.user (some u)) none ins st =
        ⟨.err 500 m, { st with users := st.users ++ [caregiverUserRecord u data] },
         [.verifyToken (extractToken a), .selectUsers u.id,
          .insertUser (caregiverUserRecord u data),
          .insertElderly (caregiverElderlyRecord u data)]⟩)
    ∧ (ins 0 = .returnsRows → ins 1 = .returnsNoRows →
      complete_caregiver c data a (.user (some u)) none ins st =
        ⟨.err 500 "Failed to create elderly profile",
         { st with users := st.users ++ [caregiverUserRecord u data] },
         [.verifyToken (extractToken a), .selectUsers u.id,
          .insertUser (caregiverUserRecord u data),
          .insertElderly (caregiverElderlyRecord u data)]⟩)
    ∧ (∀ k m, ins 0 = .returnsRows → ins 1 = .returnsRows →
        k < (medPlan u.id data).length → (∀ j, j < k → ins (2 + j) = .returnsRows) →
        ins (2 + k) = .raises m →
      complete_caregiver c data a (.user (some u)) none ins st =
        ⟨.err 500 m,
         { users := st.users ++ [caregiverUserRecord u data]
           professional_profiles := st.professional_profiles
           elderly_profiles := st.elderly_profiles ++ [caregiverElderlyRecord u data]
           medical_info := st.medical_info ++ (medPlan u.id data).take k },
         [.verifyToken (extractToken a), .selectUsers u.id,
          .insertUser (caregiverUserRecord u data),
          .insertElderly (caregiverElderlyRecord u data)]
           ++ ((medPlan u.id data).take (k + 1)).map .insertMedical⟩)
    ∧ (ins 0 = .returnsRows → ins 1 = .returnsRows → (∀ j, 2 ≤ j → ins j = .returnsNoRows) →
      (complete_caregiver c data a (.user (some u)) none ins st).response.statusCode = 200
      ∧ (complete_caregiver c data a (.user (some u)) none ins st).store.medical_info =
          st.medical_info
      ∧ medInsertsOf (complete_caregiver c data a (.user (some u)) none ins st).calls =
          medPlan u.id data) := by
  refine ⟨?_, ?_, ?_, ?_, ?_, ?_⟩
  · intro m h0
    simp [complete_caregiver, hc, ha, hb, hfilter, h0, caregiverUserRecord]
  · intro h0
    simp [complete_caregiver, hc, ha, hb, hfilter, h0, caregiverUserRecord]
  · intro m h0 h1
    simp [complete_caregiver, hc, ha, hb, hfilter, h0, h1, caregiverUserRecord,
      caregiverElderlyRecord]
  · intro h0 h1
    simp [complete_caregiver, hc, ha, hb, hfilter, h0, h1, caregiverUserRecord,
      caregiverElderlyRecord]
  · intro k m h0 h1 hk hpre hraise
    rw [complete_caregiver_eq_medPhase c data a u ins st hc ha hb hfilter h0 h1,
      medPhase_raiseAt u.id data ins k m hk hpre hraise]
  · intro h0 h1 hno
    rw [complete_caregiver_eq_medPhase c data a u ins st hc ha hb hfilter h0 h1,
      medPhase_allNoRowsFrom2 u.id data ins hno]
    refine ⟨rfl, by simp, ?_⟩
    simp [medInsertsOf, List.filterMap_map, Function.comp_def, extractToken]

theorem c2_caregiver_chain_failure_behaviour_witness :
    (fun i => if i < 2 then InsertOutcome.returnsRows else .raises "db down") (2 + 0)
        = .raises "db down"
    ∧ complete_caregiver cfgFull caregiverBodyExample "Bearer t" (.user (some sampleUser)) none
        (fun i => if i < 2 then InsertOutcome.returnsRows else .raises "db down") storeEmpty =
        ⟨.err 500 "db down",
         { users := storeEmpty.users ++ [caregiverUserRecord sampleUser caregiverBodyExample]
           professional_profiles := storeEmpty.professional_profiles
           elderly_profiles :=
             storeEmpty.elderly_profiles ++ [caregiverElderlyRecord sampleUser caregiverBodyExample]
           medical_info := storeEmpty.medical_info
             ++ (medPlan sampleUser.id caregiverBodyExample).take 0 },
         [.verifyToken (extractToken "Bearer t"), .selectUsers sampleUser.id,
          .insertUser (caregiverUserRecord sampleUser caregiverBodyExample),
          .insertElderly (caregiverElderlyRecord sampleUser caregiverBodyExample)]
           ++ ((medPlan sampleUser.id caregiverBodyExample).take (0 + 1)).map .insertMedical⟩ :=
  ⟨by decide,
   (c2_caregiver_chain_failure_behaviour cfgFull caregiverBodyExample "Bearer t" sampleUser
      (fun i => if i < 2 then InsertOutcome.returnsRows else .raises "db down") storeEmpty
      (by decide) (by decide) (by decide) (by decide)).2.2.2.2.1 0 "db down" (by decide)
      (by decide) (by decide) (fun j hj => by omega) (by decide)⟩

end CareNet
